import Mathlib

/-!
Verification development for the platform-independent capture context
(src/common/context.cpp of openpnp-capture).

The embedding models:
  * the device registry `m_devices` as a list of optional device
    descriptors (a `none` entry is a null `deviceInfo*`),
  * the session table `m_streams` (a `std::map<int32_t, Stream*>`) as an
    association list from `Int` keys to optional stream objects (a `none`
    value is a null `Stream*`),
  * the platform `Stream` capability as a record of abstract result
    fields (the platform backend is outside the core, so its behaviour is
    a parameter of the model),
  * possible undefined behaviour (dereferencing a null pointer) as `none`
    in an `Option` result type.
Machine integers: handles are `int32_t`; they are modelled as `Int`, with
hypotheses bounding operation counts below 2^31 where counter overflow
could otherwise matter.  Unsigned ids (`CapDeviceID`, `CapFormatID`) are
modelled as `Nat`.
-/

/-- Lookup in an association list, mirroring `std::map::find`:
returns the value at the first (unique, for map-shaped lists) matching
key, or `none` when the key is absent. -/
def mapFind {α : Type} : List (Int × α) → Int → Option α
  | [], _ => none
  | (k, v) :: rest, key => if key = k then some v else mapFind rest key

/-- Removal from an association list, mirroring `std::map::erase` of a
found iterator: drops the first entry with the given key. -/
def mapErase {α : Type} : List (Int × α) → Int → List (Int × α)
  | [], _ => []
  | (k, v) :: rest, key =>
      if key = k then rest else (k, v) :: mapErase rest key

/-- Insertion mirroring `std::map::insert`: inserts the pair only when
the key is not already present (`insert` never overwrites). -/
def mapInsert {α : Type} (m : List (Int × α)) (k : Int) (v : α) :
    List (Int × α) :=
  match mapFind m k with
  | some _ => m
  | none => m ++ [(k, v)]

/-- CapFormatInfo: width, height and the FOURCC pixel-format tag
(a 32-bit value holding four packed bytes). -/
structure CapFormatInfo where
  width : Nat
  height : Nat
  fourcc : Nat
  deriving Repr, DecidableEq

/-- deviceInfo: the descriptor of one enumerated device, with its
display name `m_name` and supported formats `m_formats`. -/
structure DeviceInfo where
  m_name : String
  m_formats : List CapFormatInfo
  deriving Repr, DecidableEq

/-- The platform `Stream` capability (one concrete class per platform,
outside the core).  The core only calls through this interface, so each
operation is modelled by an abstract result field. -/
structure StreamObj where
  isOpen : Bool
  hasNewFrame : Bool
  getFrameCount : Nat
  captureFrame : Nat → Bool
  getPropertyLimits : Nat → Int → Int → Bool × Int × Int
  setProperty : Nat → Int → Bool
  setAutoProperty : Nat → Bool → Bool

/-- The Context state: device registry, session table and the handle
counter `m_streamCounter` (an `int32_t`, initialised to 0 in the
constructor). -/
structure Context where
  m_devices : List (Option DeviceInfo)
  m_streams : List (Int × Option StreamObj)
  m_streamCounter : Int

/-- Context::getDeviceName: `none` models returning NULL.  Returns NULL
for an out-of-range id, and NULL again when the descriptor pointer at an
in-range id is null; otherwise the device name. -/
def Context.getDeviceName (c : Context) (id : Nat) : Option String :=
  if c.m_devices.length ≤ id then none
  else
    match c.m_devices.getD id none with
    | none => none
    | some dev => some dev.m_name

/-- Context::getDeviceCount. -/
def Context.getDeviceCount (c : Context) : Nat :=
  c.m_devices.length

/-- Context::getNumFormats: -1 for an out-of-range id or a null
descriptor pointer; otherwise the device's format count. -/
def Context.getNumFormats (c : Context) (index : Nat) : Int :=
  if c.m_devices.length ≤ index then -1
  else
    match c.m_devices.getD index none with
    | none => -1
    | some dev => (dev.m_formats.length : Int)

/-- Context::getFormatInfo: the out-parameter `*info` is modelled by
passing its current value in and returning the (result, new value)
pair.  The info is overwritten exactly on the successful path. -/
def Context.getFormatInfo (c : Context) (index fid : Nat)
    (info : CapFormatInfo) : Bool × CapFormatInfo :=
  if c.m_devices.length ≤ index then (false, info)
  else
    match c.m_devices.getD index none with
    | none => (false, info)
    | some dev =>
        if fid < dev.m_formats.length then
          (true, dev.m_formats.getD fid info)
        else (false, info)

/-- Context::lookupStreamByID: `std::map::find`, returning the stored
pointer when the key exists and NULL otherwise.  A stored null pointer
and an absent key are both reported as `none` (NULL), as in the source. -/
def Context.lookupStreamByID (c : Context) (ID : Int) : Option StreamObj :=
  match mapFind c.m_streams ID with
  | some p => p
  | none => none

/-- The pointer value produced by `m_streams[streamID]`
(`std::map::operator[]`): the stored pointer when the key exists,
otherwise a value-initialised (null) pointer, which the map also
inserts.  Since every caller immediately dereferences the result, the
insertion side effect is unobservable before the undefined behaviour
and only the returned pointer is modelled. -/
def mapIndex (m : List (Int × Option StreamObj)) (k : Int) :
    Option StreamObj :=
  match mapFind m k with
  | some p => p
  | none => none

/-- Context::storeStream: hands out `m_streamCounter++` as the new ID
and inserts the stream pointer under it. -/
def Context.storeStream (c : Context) (stream : Option StreamObj) :
    Context × Int :=
  ({ c with
      m_streamCounter := c.m_streamCounter + 1,
      m_streams := mapInsert c.m_streams c.m_streamCounter stream },
   c.m_streamCounter)

/-- Context::removeStream: erases and deletes the entry when found,
reporting whether it was found. -/
def Context.removeStream (c : Context) (ID : Int) : Context × Bool :=
  match mapFind c.m_streams ID with
  | some _ => ({ c with m_streams := mapErase c.m_streams ID }, true)
  | none => (c, false)

/-- Context::closeStream: rejects a negative ID with `false`; otherwise
calls removeStream (only logging on failure) and returns `true`
unconditionally. -/
def Context.closeStream (c : Context) (streamID : Int) : Context × Bool :=
  if streamID < 0 then (c, false)
  else ((c.removeStream streamID).1, true)

/-- Context::isOpenStream.  The guard compares the (non-negative) ID
against `m_streams.size()`, then dereferences `m_streams[streamID]`:
when the key is absent the dereferenced pointer is null, which is
undefined behaviour, modelled as `none`. -/
def Context.isOpenStream (c : Context) (streamID : Int) : Option Nat :=
  if streamID < 0 then some 0
  else if (c.m_streams.length : Int) ≤ streamID then some 0
  else
    match mapIndex c.m_streams streamID with
    | none => none
    | some s => some (if s.isOpen then 1 else 0)

/-- Context::captureFrame, with the destination buffer abstracted to its
byte size.  Same size-based guard and `operator[]` dereference as
isOpenStream; `none` is undefined behaviour. -/
def Context.captureFrame (c : Context) (streamID : Int)
    (bufferBytes : Nat) : Option Bool :=
  if streamID < 0 then some false
  else if (c.m_streams.length : Int) ≤ streamID then some false
  else
    match mapIndex c.m_streams streamID with
    | none => none
    | some s => some (s.captureFrame bufferBytes)

/-- Context::hasNewFrame; `none` is undefined behaviour. -/
def Context.hasNewFrame (c : Context) (streamID : Int) : Option Bool :=
  if streamID < 0 then some false
  else if (c.m_streams.length : Int) ≤ streamID then some false
  else
    match mapIndex c.m_streams streamID with
    | none => none
    | some s => some s.hasNewFrame

/-- Context::getStreamFrameCount; `none` is undefined behaviour. -/
def Context.getStreamFrameCount (c : Context) (streamID : Int) :
    Option Nat :=
  if streamID < 0 then some 0
  else if (c.m_streams.length : Int) ≤ streamID then some 0
  else
    match mapIndex c.m_streams streamID with
    | none => none
    | some s => some s.getFrameCount

/-- Context::openStream.  The platform stream produced by
createPlatformStream and the result of its `open` call are parameters
(`s`, `openOK`) since the backend is outside the core.  The `none`
result marks the undefined behaviour of dereferencing a null descriptor
pointer at `device->m_formats.size()`: openStream, unlike the registry
lookups, performs no null check after `device = m_devices[id]`. -/
def Context.openStream (c : Context) (id fid : Nat) (openOK : Bool)
    (s : StreamObj) : Option (Context × Int) :=
  if id < c.m_devices.length then
    match c.m_devices.getD id none with
    | none => none
    | some device =>
        if device.m_formats.length ≤ fid then some (c, -1)
        else if openOK then some (c.storeStream (some s))
        else some (c, -1)
  else some (c, -1)

/-- Context::getStreamPropertyLimits: the two out-parameters are
modelled by passing their current values and returning
(result, min, max). -/
def Context.getStreamPropertyLimits (c : Context) (streamID : Int)
    (propertyID : Nat) (pmin pmax : Int) : Bool × Int × Int :=
  match c.lookupStreamByID streamID with
  | none => (false, pmin, pmax)
  | some s => s.getPropertyLimits propertyID pmin pmax

/-- Context::setStreamAutoProperty. -/
def Context.setStreamAutoProperty (c : Context) (streamID : Int)
    (propertyID : Nat) (enable : Bool) : Bool :=
  match c.lookupStreamByID streamID with
  | none => false
  | some s => s.setAutoProperty propertyID enable

/-- Context::setStreamProperty. -/
def Context.setStreamProperty (c : Context) (streamID : Int)
    (propertyID : Nat) (value : Int) : Bool :=
  match c.lookupStreamByID streamID with
  | none => false
  | some s => s.setProperty propertyID value

/-- The loop of fourCCToString: `i` iterations of appending the low
byte and shifting right by 8. -/
def fourCCLoop : Nat → Nat → List Nat
  | _, 0 => []
  | f, i + 1 => f % 256 :: fourCCLoop (f / 256) i

/-- fourCCToString: the human-readable rendering of a FOURCC value as
the list of the four byte values appended low-to-high (each becomes one
character of the resulting string). -/
def fourCCToString (fourcc : Nat) : List Nat :=
  fourCCLoop fourcc 4

/-- One state-changing public call on a Context.  The query calls
(isOpenStream, captureFrame, ...) never touch `m_streamCounter` and, in
executions free of undefined behaviour, never change `m_streams`, so a
trace of openStream/closeStream calls captures every evolution of the
handle state. -/
inductive Op where
  | openOp (id fid : Nat) (openOK : Bool) (s : StreamObj)
  | closeOp (h : Int)

/-- Run a trace of calls from a starting Context, collecting in order
the handles returned by the successful openStream calls (a call is
successful when it does not return -1).  A trace that reaches undefined
behaviour (openStream dereferencing a null descriptor) stops there. -/
def runOps : Context → List Op → Context × List Int
  | c, [] => (c, [])
  | c, Op.openOp id fid ok s :: rest =>
      match c.openStream id fid ok s with
      | none => (c, [])
      | some (c2, r) =>
          if r = -1 then runOps c2 rest
          else ((runOps c2 rest).1, r :: (runOps c2 rest).2)
  | c, Op.closeOp h :: rest => runOps (c.closeStream h).1 rest

/-- A freshly constructed Context over a given device registry: empty
session table, `m_streamCounter` initialised to 0. -/
def initContext (devs : List (Option DeviceInfo)) : Context :=
  ⟨devs, [], 0⟩

/-- A concrete open platform stream object used in concrete states. -/
def sOpen : StreamObj :=
  ⟨true, false, 0, fun _ => true, fun _ a b => (true, a, b),
   fun _ _ => true, fun _ _ => true⟩

/-- A concrete device descriptor with one 640x480 YUYV format. -/
def devW : DeviceInfo := ⟨"Camera0", [⟨640, 480, 0x56595559⟩]⟩

/-- A concrete device registry: one device with one 640x480 format. -/
def devsW : List (Option DeviceInfo) := [some devW]

/-- The Context reached from a fresh Context over `devsW` by two
successful openStream calls (handles 0 and 1) followed by
closeStream 0: the session table holds only handle 1 (a live, open
session) while its size is 1. -/
def ctxStale : Context :=
  ((((initContext devsW).storeStream (some sOpen)).1.storeStream
      (some sOpen)).1.closeStream 0).1

/-- The Context reached from a fresh Context over `devsW` by one
successful openStream call: the session table holds handle 0. -/
def ctxOne : Context :=
  ((initContext devsW).storeStream (some sOpen)).1

/-- An empty Context (no devices, no sessions). -/
def ctxEmpty : Context := initContext []

/-- A registry whose only slot holds a null descriptor pointer. -/
def ctxNullDev : Context := initContext [none]

/-- A concrete trace: open, close the handle, open again on the same
device. -/
def opsW : List Op :=
  [Op.openOp 0 0 true sOpen, Op.closeOp 0, Op.openOp 0 0 true sOpen]

example : ctxStale.m_streams = [(1, some sOpen)] := rfl
example : ctxStale.m_streamCounter = 2 := rfl
example : ctxStale.isOpenStream 1 = some 0 := rfl
example : ctxStale.isOpenStream 0 = none := rfl
example : ctxStale.captureFrame 0 100 = none := rfl
example : (ctxEmpty.closeStream 0).2 = true := rfl
example : (runOps (initContext devsW) opsW).2 = [0, 1] := rfl
/-- mapFind after mapErase at a different key is unchanged. -/
theorem mapFind_mapErase_ne {α : Type} (m : List (Int × α)) (h k : Int)
    (hne : k ≠ h) : mapFind (mapErase m h) k = mapFind m k := by
  induction m with
  | nil => rfl
  | cons p rest ih =>
    obtain ⟨k0, v0⟩ := p
    by_cases hh : h = k0
    · subst hh
      simp [mapErase, mapFind, hne]
    · simp only [mapErase, if_neg hh, mapFind]
      by_cases hk : k = k0
      · simp [hk]
      · simp [hk, ih]

/-- mapFind misses when the key occurs nowhere in the list. -/
theorem mapFind_eq_none_of_not_mem {α : Type} (m : List (Int × α))
    (h : Int) (hnm : h ∉ m.map Prod.fst) : mapFind m h = none := by
  induction m with
  | nil => rfl
  | cons p rest ih =>
    obtain ⟨k0, v0⟩ := p
    simp only [List.map_cons, List.mem_cons] at hnm
    push_neg at hnm
    simp only [mapFind, if_neg hnm.1]
    exact ih hnm.2

/-- mapFind after mapErase at the erased key is `none`, provided the
keys are distinct (the invariant of a `std::map`). -/
theorem mapFind_mapErase_self {α : Type} (m : List (Int × α)) (h : Int)
    (hnd : (m.map Prod.fst).Nodup) : mapFind (mapErase m h) h = none := by
  induction m with
  | nil => rfl
  | cons p rest ih =>
    obtain ⟨k0, v0⟩ := p
    simp only [List.map_cons, List.nodup_cons] at hnd
    by_cases hh : h = k0
    · have he : mapErase ((k0, v0) :: rest) h = rest := by
        simp [mapErase, hh]
      rw [he, hh]
      exact mapFind_eq_none_of_not_mem rest k0 hnd.1
    · simp only [mapErase, if_neg hh, mapFind, if_neg hh]
      exact ih hnd.2

/-- Characterisation of one openStream call: apart from the undefined
null-descriptor case, it either fails with -1 leaving the state
untouched, or hands out the current counter value and increments it. -/
theorem openStream_result (c : Context) (id fid : Nat) (ok : Bool)
    (s : StreamObj) (c2 : Context) (r : Int)
    (h : c.openStream id fid ok s = some (c2, r)) :
    (c2 = c ∧ r = -1) ∨
    (r = c.m_streamCounter ∧
      c2.m_streamCounter = c.m_streamCounter + 1 ∧
      c2.m_streams = mapInsert c.m_streams c.m_streamCounter (some s)) := by
  unfold Context.openStream at h
  split at h
  · split at h
    · exact absurd h (by simp)
    · split at h
      · left
        cases h
        exact ⟨rfl, rfl⟩
      · split at h
        · right
          unfold Context.storeStream at h
          cases h
          exact ⟨rfl, rfl, rfl⟩
        · left
          cases h
          exact ⟨rfl, rfl⟩
  · left
    cases h
    exact ⟨rfl, rfl⟩

/-- closeStream never changes the handle counter. -/
theorem closeStream_counter (c : Context) (h : Int) :
    (c.closeStream h).1.m_streamCounter = c.m_streamCounter := by
  unfold Context.closeStream Context.removeStream
  split
  · rfl
  · cases hm : mapFind c.m_streams h <;> simp

/-- Unfolding equation of runOps on an openStream step. -/
theorem runOps_openOp (c : Context) (id fid : Nat) (ok : Bool)
    (s : StreamObj) (rest : List Op) :
    runOps c (Op.openOp id fid ok s :: rest) =
      match c.openStream id fid ok s with
      | none => (c, [])
      | some (c2, r) =>
          if r = -1 then runOps c2 rest
          else ((runOps c2 rest).1, r :: (runOps c2 rest).2) := rfl

/-- Unfolding equation of runOps on a closeStream step. -/
theorem runOps_closeOp (c : Context) (h : Int) (rest : List Op) :
    runOps c (Op.closeOp h :: rest) = runOps (c.closeStream h).1 rest :=
  rfl

/-- Trace invariant: the counter never decreases, grows by at most one
per call, and the handles collected from successful openStream calls
lie between the starting and final counter values and are pairwise
strictly increasing in order of collection. -/
theorem runOps_spec (ops : List Op) (c : Context) :
    c.m_streamCounter ≤ (runOps c ops).1.m_streamCounter ∧
    (runOps c ops).1.m_streamCounter ≤
      c.m_streamCounter + (ops.length : Int) ∧
    (∀ h ∈ (runOps c ops).2,
      c.m_streamCounter ≤ h ∧ h < (runOps c ops).1.m_streamCounter) ∧
    List.Pairwise (· < ·) (runOps c ops).2 := by
  induction ops generalizing c with
  | nil =>
    refine ⟨le_refl _, by simp [runOps], ?_, by simp [runOps]⟩
    intro h hh
    simp [runOps] at hh
  | cons op rest ih =>
    cases op with
    | openOp id fid ok s =>
      rw [runOps_openOp]
      cases hres : c.openStream id fid ok s with
      | none =>
        refine ⟨le_refl _, by push_cast; omega, ?_, by simp⟩
        intro h hh
        simp at hh
      | some p =>
        obtain ⟨c2, r⟩ := p
        dsimp only
        have hstep := openStream_result c id fid ok s c2 r hres
        have hle : c.m_streamCounter ≤ c2.m_streamCounter ∧
            c2.m_streamCounter ≤ c.m_streamCounter + 1 := by
          rcases hstep with ⟨hc, _⟩ | ⟨_, hcnt, _⟩
          · rw [hc]
            omega
          · omega
        obtain ⟨ih1, ih2, ih3, ih4⟩ := ih c2
        by_cases hr1 : r = -1
        · rw [if_pos hr1]
          refine ⟨by omega, ?_, ?_, ih4⟩
          · simp only [List.length_cons]
            push_cast
            omega
          · intro h hh
            have := ih3 h hh
            omega
        · have hr : r = c.m_streamCounter ∧
              c2.m_streamCounter = c.m_streamCounter + 1 := by
            rcases hstep with ⟨_, h1⟩ | ⟨h1, h2, _⟩
            · exact absurd h1 hr1
            · exact ⟨h1, h2⟩
          rw [if_neg hr1]
          dsimp only
          refine ⟨by omega, ?_, ?_, ?_⟩
          · simp only [List.length_cons]
            push_cast
            omega
          · intro h hh
            simp only [List.mem_cons] at hh
            rcases hh with hh | hh
            · subst hh
              omega
            · have := ih3 h hh
              omega
          · refine List.Pairwise.cons ?_ ih4
            intro h hh
            have := ih3 h hh
            omega
    | closeOp hd =>
      rw [runOps_closeOp]
      have hcc := closeStream_counter c hd
      obtain ⟨ih1, ih2, ih3, ih4⟩ := ih (c.closeStream hd).1
      refine ⟨by omega, ?_, ?_, ih4⟩
      · simp only [List.length_cons]
        push_cast
        omega
      · intro h hh
        have := ih3 h hh
        omega

/-- Claim C1 (amended): closeStream returns false exactly for negative
handles.  For a non-negative handle it always returns true; when a
session exists at that handle it is removed (and destroyed) leaving all
other sessions untouched, and when none exists the table is unchanged.
The keys-distinct hypothesis is the `std::map` invariant. -/
theorem closeStream_behaviour (c : Context) (h : Int)
    (hnd : (c.m_streams.map Prod.fst).Nodup) :
    (h < 0 → c.closeStream h = (c, false)) ∧
    (0 ≤ h →
      (c.closeStream h).2 = true ∧
      (mapFind c.m_streams h = none → (c.closeStream h).1 = c) ∧
      (∀ v, mapFind c.m_streams h = some v →
        mapFind (c.closeStream h).1.m_streams h = none ∧
        ∀ k, k ≠ h →
          mapFind (c.closeStream h).1.m_streams k =
            mapFind c.m_streams k)) := by
  constructor
  · intro hneg
    unfold Context.closeStream
    rw [if_pos hneg]
  · intro hpos
    have hnn : ¬ h < 0 := by omega
    unfold Context.closeStream Context.removeStream
    rw [if_neg hnn]
    refine ⟨rfl, ?_, ?_⟩
    · intro hfind
      simp [hfind]
    · intro v hfind
      simp only [hfind]
      exact ⟨mapFind_mapErase_self _ _ hnd,
        fun k hk => mapFind_mapErase_ne _ _ _ hk⟩

/-- Claim C1 counterexample: on the empty Context no session exists at
handle 0, yet closeStream 0 returns true, not false as claimed. -/
theorem closeStream_returns_true_without_session :
    mapFind ctxEmpty.m_streams 0 = none ∧
    (ctxEmpty.closeStream 0).2 ≠ false :=
  ⟨rfl, by decide⟩

/-- Witness for closeStream_behaviour at the concrete state holding
exactly the session with handle 1. -/
theorem closeStream_behaviour_witness :
    (ctxStale.closeStream 1).2 = true ∧
    mapFind (ctxStale.closeStream 1).1.m_streams 1 = none := by
  have t := closeStream_behaviour ctxStale 1 (by decide)
  have t2 := t.2 (by norm_num)
  exact ⟨t2.1, (t2.2.2 (some sOpen) rfl).1⟩

/-- Claim C2: in the reachable state ctxStale (open, open, close first
handle), handle 0 has no session but passes the size-based guard, so
captureFrame, hasNewFrame, getStreamFrameCount and isOpenStream all
dereference a null Stream pointer (undefined behaviour, `none`) instead
of returning their sentinel. -/
theorem stale_handle_undefined_behaviour :
    mapFind ctxStale.m_streams 0 = none ∧
    mapFind ctxStale.m_streams 1 = some (some sOpen) ∧
    ctxStale.captureFrame 0 100 = none ∧
    ctxStale.hasNewFrame 0 = none ∧
    ctxStale.getStreamFrameCount 0 = none ∧
    ctxStale.isOpenStream 0 = none :=
  ⟨rfl, rfl, rfl, rfl, rfl, rfl⟩

/-- Claim C3 (amended): isOpenStream returns 0 for a negative handle
and for any handle at least the current table size (even one that
refers to a live session); for a handle below the table size it returns
the session's open state when the handle is live, and dereferences a
null pointer (undefined behaviour) when it is not. -/
theorem isOpenStream_behaviour (c : Context) (h : Int) :
    (h < 0 → c.isOpenStream h = some 0) ∧
    ((c.m_streams.length : Int) ≤ h → c.isOpenStream h = some 0) ∧
    (∀ s, 0 ≤ h → h < (c.m_streams.length : Int) →
        mapFind c.m_streams h = some (some s) →
        c.isOpenStream h = some (if s.isOpen then 1 else 0)) ∧
    (0 ≤ h → h < (c.m_streams.length : Int) →
        mapIndex c.m_streams h = none →
        c.isOpenStream h = none) := by
  refine ⟨?_, ?_, ?_, ?_⟩
  · intro hneg
    unfold Context.isOpenStream
    rw [if_pos hneg]
  · intro hge
    unfold Context.isOpenStream
    by_cases hneg : h < 0
    · rw [if_pos hneg]
    · rw [if_neg hneg, if_pos hge]
  · intro s h0 hlt hfind
    unfold Context.isOpenStream
    rw [if_neg (by omega), if_neg (by omega)]
    simp [mapIndex, hfind]
  · intro h0 hlt hidx
    unfold Context.isOpenStream
    rw [if_neg (by omega), if_neg (by omega)]
    simp [hidx]

/-- Claim C3 counterexample: in ctxStale handle 1 refers to a live,
open session, yet isOpenStream returns 0, because the guard compares
the handle against the table size (1) instead of testing membership. -/
theorem isOpenStream_zero_for_live_handle :
    mapFind ctxStale.m_streams 1 = some (some sOpen) ∧
    sOpen.isOpen = true ∧
    ctxStale.isOpenStream 1 ≠ some 1 :=
  ⟨rfl, rfl, by decide⟩

/-- Witness for isOpenStream_behaviour: a negative handle, a live
handle at the table size, and a live handle below the table size. -/
theorem isOpenStream_behaviour_witness :
    ctxStale.isOpenStream (-1) = some 0 ∧
    ctxStale.isOpenStream 1 = some 0 ∧
    ctxOne.isOpenStream 0 = some 1 := by
  refine ⟨(isOpenStream_behaviour ctxStale (-1)).1 (by norm_num),
    (isOpenStream_behaviour ctxStale 1).2.1 (by decide), ?_⟩
  have t := (isOpenStream_behaviour ctxOne 0).2.2.1 sOpen
    (by norm_num) (by decide) rfl
  simpa using t

/-- Claim C4: a failed openStream call (device id out of range, format
id out of range, or the platform open failing) returns -1 with the
Context unchanged — session table and counter included — and any later
successful openStream still hands out the current counter value, as if
the failed call had never happened. -/
theorem openStream_failure_no_allocation (c : Context) (id fid : Nat)
    (ok : Bool) (s : StreamObj)
    (hfail : c.m_devices.length ≤ id ∨
      ∃ d, c.m_devices.getD id none = some d ∧
        (d.m_formats.length ≤ fid ∨ ok = false)) :
    c.openStream id fid ok s = some (c, -1) ∧
    ∀ id2 fid2 ok2 s2 c2 r,
      c.openStream id2 fid2 ok2 s2 = some (c2, r) → r ≠ -1 →
      r = c.m_streamCounter ∧
      c2.m_streamCounter = c.m_streamCounter + 1 := by
  constructor
  · unfold Context.openStream
    rcases hfail with h1 | ⟨d, hd, h2⟩
    · rw [if_neg (by omega)]
    · have hlt : id < c.m_devices.length := by
        by_contra hc
        rw [List.getD_eq_default _ _ (by omega)] at hd
        cases hd
      rw [if_pos hlt, hd]
      dsimp only
      rcases h2 with h2 | h2
      · rw [if_pos h2]
      · by_cases hf : d.m_formats.length ≤ fid
        · rw [if_pos hf]
        · rw [if_neg hf, h2]
          simp
  · intro id2 fid2 ok2 s2 c2 r hres hr
    rcases openStream_result c id2 fid2 ok2 s2 c2 r hres with
      ⟨_, h1⟩ | ⟨h1, h2, _⟩
    · exact absurd h1 hr
    · exact ⟨h1, h2⟩

/-- Witness for openStream_failure_no_allocation: format id 5 is out of
range for the one-format device, so the call fails without allocating. -/
theorem openStream_failure_no_allocation_witness :
    (initContext devsW).openStream 0 5 true sOpen =
      some (initContext devsW, -1) :=
  (openStream_failure_no_allocation (initContext devsW) 0 5 true sOpen
    (Or.inr ⟨devW, rfl, Or.inl (by decide)⟩)).1

/-- Claim C5: starting from a fresh Context, every trace of open and
close calls yields handles that are pairwise strictly increasing in
order of allocation (so never reused, even after closeStream), all
non-negative, and — under the hypothesis that the trace is shorter than
2^31 calls, so the int32_t counter cannot overflow — all representable
in int32_t. -/
theorem handles_strictly_increasing (devs : List (Option DeviceInfo))
    (ops : List Op) (hlen : ops.length ≤ 2 ^ 31 - 1) :
    List.Pairwise (· < ·) (runOps (initContext devs) ops).2 ∧
    ∀ h ∈ (runOps (initContext devs) ops).2, 0 ≤ h ∧ h < 2 ^ 31 := by
  obtain ⟨h1, h2, h3, h4⟩ := runOps_spec ops (initContext devs)
  refine ⟨h4, ?_⟩
  intro h hh
  have hb := h3 h hh
  have hc : (initContext devs).m_streamCounter = 0 := rfl
  rw [hc] at hb h2
  have hpn : (2 ^ 31 : Nat) = 2147483648 := by norm_num
  have hp : (2 : Int) ^ 31 = 2147483648 := by norm_num
  rw [hpn] at hlen
  rw [hp]
  omega

/-- Witness for handles_strictly_increasing on the open, close, open
trace. -/
theorem handles_strictly_increasing_witness :
    List.Pairwise (· < ·) (runOps (initContext devsW) opsW).2 ∧
    ∀ h ∈ (runOps (initContext devsW) opsW).2, 0 ≤ h ∧ h < 2 ^ 31 :=
  handles_strictly_increasing devsW opsW (by decide)

/-- Claim C6: for a device id out of range, or an in-range id whose
backing descriptor pointer is null, getDeviceName returns NULL,
getNumFormats returns -1 and getFormatInfo returns false leaving the
info record unchanged. -/
theorem registry_notfound (c : Context) (id fid : Nat)
    (info : CapFormatInfo)
    (h : c.m_devices.length ≤ id ∨ c.m_devices.getD id none = none) :
    c.getDeviceName id = none ∧ c.getNumFormats id = -1 ∧
    c.getFormatInfo id fid info = (false, info) := by
  unfold Context.getDeviceName Context.getNumFormats Context.getFormatInfo
  by_cases hlen : c.m_devices.length ≤ id
  · rw [if_pos hlen, if_pos hlen, if_pos hlen]
    exact ⟨rfl, rfl, rfl⟩
  · have hn : c.m_devices.getD id none = none := h.resolve_left hlen
    rw [if_neg hlen, if_neg hlen, if_neg hlen, hn]
    exact ⟨rfl, rfl, rfl⟩

/-- Witness for registry_notfound: a null descriptor slot and an
out-of-range id. -/
theorem registry_notfound_witness :
    (ctxNullDev.getDeviceName 0 = none ∧ ctxNullDev.getNumFormats 0 = -1 ∧
      ctxNullDev.getFormatInfo 0 0 ⟨0, 0, 0⟩ = (false, ⟨0, 0, 0⟩)) ∧
    ctxEmpty.getDeviceName 5 = none :=
  ⟨registry_notfound ctxNullDev 0 0 ⟨0, 0, 0⟩ (Or.inr rfl),
   (registry_notfound ctxEmpty 5 0 ⟨0, 0, 0⟩ (Or.inl (by decide))).1⟩

/-- Claim C7: getFormatInfo succeeds, copying the device's fid-th
format into the info out-parameter, exactly when the id is in range,
the descriptor is present and fid is below the device's format count;
in every other case it returns false and leaves the info unchanged. -/
theorem getFormatInfo_characterisation (c : Context) (id fid : Nat)
    (info : CapFormatInfo) :
    (∀ d, c.m_devices.getD id none = some d → fid < d.m_formats.length →
        c.getFormatInfo id fid info = (true, d.m_formats.getD fid info)) ∧
    ((c.m_devices.length ≤ id ∨ c.m_devices.getD id none = none ∨
        ∃ d, c.m_devices.getD id none = some d ∧
          d.m_formats.length ≤ fid) →
        c.getFormatInfo id fid info = (false, info)) := by
  constructor
  · intro d hd hfid
    have hlen : ¬ c.m_devices.length ≤ id := by
      by_contra hc
      rw [List.getD_eq_default _ _ (by omega)] at hd
      cases hd
    unfold Context.getFormatInfo
    rw [if_neg hlen, hd]
    dsimp only
    rw [if_pos hfid]
  · intro hcase
    unfold Context.getFormatInfo
    by_cases hlen : c.m_devices.length ≤ id
    · rw [if_pos hlen]
    · rw [if_neg hlen]
      rcases hcase with h1 | h2 | ⟨d, hd, hge⟩
      · exact absurd h1 hlen
      · rw [h2]
      · rw [hd]
        dsimp only
        rw [if_neg (by omega)]

/-- Witness for getFormatInfo_characterisation: a successful lookup and
an out-of-range format id on the same device. -/
theorem getFormatInfo_characterisation_witness :
    (initContext devsW).getFormatInfo 0 0 ⟨0, 0, 0⟩ =
      (true, ⟨640, 480, 0x56595559⟩) ∧
    (initContext devsW).getFormatInfo 0 3 ⟨0, 0, 0⟩ =
      (false, ⟨0, 0, 0⟩) :=
  ⟨(getFormatInfo_characterisation (initContext devsW) 0 0 ⟨0, 0, 0⟩).1
      devW rfl (by decide),
   (getFormatInfo_characterisation (initContext devsW) 0 3 ⟨0, 0, 0⟩).2
      (Or.inr (Or.inr ⟨devW, rfl, by decide⟩))⟩

/-- Claim C8: the three property operations return false whenever the
session table holds no live session at the handle (negative, never
allocated, already closed, or a null entry) — the session is never
consulted — and for a live session they delegate to its corresponding
operation, returning its result. -/
theorem streamProperty_delegation (c : Context) (h : Int) (pid : Nat)
    (v pmin pmax : Int) (en : Bool) :
    ((∀ s, mapFind c.m_streams h ≠ some (some s)) →
       c.getStreamPropertyLimits h pid pmin pmax = (false, pmin, pmax) ∧
       c.setStreamProperty h pid v = false ∧
       c.setStreamAutoProperty h pid en = false) ∧
    (∀ s, mapFind c.m_streams h = some (some s) →
       c.getStreamPropertyLimits h pid pmin pmax =
         s.getPropertyLimits pid pmin pmax ∧
       c.setStreamProperty h pid v = s.setProperty pid v ∧
       c.setStreamAutoProperty h pid en = s.setAutoProperty pid en) := by
  unfold Context.getStreamPropertyLimits Context.setStreamProperty
    Context.setStreamAutoProperty Context.lookupStreamByID
  cases hm : mapFind c.m_streams h with
  | none =>
    constructor
    · intro _
      exact ⟨rfl, rfl, rfl⟩
    · intro s hs
      exact Option.noConfusion hs
  | some p =>
    cases p with
    | none =>
      constructor
      · intro _
        exact ⟨rfl, rfl, rfl⟩
      · intro s hs
        injection hs with h1
        exact Option.noConfusion h1
    | some s0 =>
      constructor
      · intro hns
        exact absurd rfl (hns s0)
      · intro s hs
        injection hs with h1
        injection h1 with h2
        subst h2
        exact ⟨rfl, rfl, rfl⟩

/-- Witness for streamProperty_delegation: handle 0 is stale in
ctxStale (false without touching any session), handle 1 is live and
delegates to the session. -/
theorem streamProperty_delegation_witness :
    ctxStale.setStreamProperty 0 1 5 = false ∧
    ctxStale.setStreamProperty 1 1 5 = true := by
  constructor
  · exact ((streamProperty_delegation ctxStale 0 1 5 0 0 true).1
      (fun s hs => Option.noConfusion hs)).2.1
  · have t := ((streamProperty_delegation ctxStale 1 1 5 0 0 true).2
      sOpen rfl).2.1
    simpa using t

/-- Claim C9: for every 32-bit FOURCC value the rendering is exactly
four characters long and its i-th character is the byte stored in the
i-th lowest byte of the value (bytes extracted low-to-high). -/
theorem fourCC_low_to_high (fourcc : Nat) (h : fourcc < 2 ^ 32) :
    (fourCCToString fourcc).length = 4 ∧
    ∀ i, i < 4 →
      (fourCCToString fourcc).getD i 0 = fourcc / 2 ^ (8 * i) % 256 := by
  have he : fourCCToString fourcc =
      [fourcc % 256, fourcc / 256 % 256, fourcc / 256 / 256 % 256,
       fourcc / 256 / 256 / 256 % 256] := rfl
  rw [he]
  refine ⟨rfl, ?_⟩
  intro i hi
  interval_cases i
  · simp
  · simp only [List.getD_cons_succ, List.getD_cons_zero]
    norm_num
  · simp only [List.getD_cons_succ, List.getD_cons_zero]
    rw [Nat.div_div_eq_div_mul]
    norm_num
  · simp only [List.getD_cons_succ, List.getD_cons_zero]
    rw [Nat.div_div_eq_div_mul, Nat.div_div_eq_div_mul]
    norm_num

/-- Witness for fourCC_low_to_high at the little-endian packing of the
four characters of YUYV. -/
theorem fourCC_low_to_high_witness :
    (fourCCToString 0x56595559).length = 4 ∧
    ∀ i, i < 4 →
      (fourCCToString 0x56595559).getD i 0 =
        0x56595559 / 2 ^ (8 * i) % 256 :=
  fourCC_low_to_high 0x56595559 (by norm_num)

/-- Claim C10: openStream checks only the two bounds before using the
descriptor; at an in-range slot holding a null descriptor it
dereferences the null pointer (undefined behaviour) where the three
registry lookups report their NotFound sentinel, and its descriptor
use is free of undefined behaviour whenever every in-range slot is
non-null. -/
theorem openStream_missing_null_check (c : Context) (id fid : Nat)
    (ok : Bool) (s : StreamObj)
    (hin : id < c.m_devices.length)
    (hnull : c.m_devices.getD id none = none) :
    c.openStream id fid ok s = none ∧
    c.getDeviceName id = none ∧
    c.getNumFormats id = -1 ∧
    (∀ info, c.getFormatInfo id fid info = (false, info)) ∧
    ∀ c2 : Context,
      (∀ i, i < c2.m_devices.length → c2.m_devices.getD i none ≠ none) →
      ∀ id2 fid2 ok2 s2, c2.openStream id2 fid2 ok2 s2 ≠ none := by
  refine ⟨?_, ?_, ?_, ?_, ?_⟩
  · unfold Context.openStream
    rw [if_pos hin, hnull]
  · unfold Context.getDeviceName
    rw [if_neg (by omega), hnull]
  · unfold Context.getNumFormats
    rw [if_neg (by omega), hnull]
  · intro info
    unfold Context.getFormatInfo
    rw [if_neg (by omega), hnull]
  · intro c2 hall id2 fid2 ok2 s2
    unfold Context.openStream
    by_cases hlt : id2 < c2.m_devices.length
    · rw [if_pos hlt]
      cases hd : c2.m_devices.getD id2 none with
      | none => exact absurd hd (hall id2 hlt)
      | some d =>
        dsimp only
        by_cases hf : d.m_formats.length ≤ fid2
        · rw [if_pos hf]
          simp
        · rw [if_neg hf]
          by_cases ho : ok2 = true
          · simp [ho]
          · simp [ho]
    · rw [if_neg hlt]
      simp

/-- Witness for openStream_missing_null_check on the registry whose
only slot is null. -/
theorem openStream_missing_null_check_witness :
    ctxNullDev.openStream 0 0 true sOpen = none ∧
    ctxNullDev.getDeviceName 0 = none := by
  have t := openStream_missing_null_check ctxNullDev 0 0 true sOpen
    (by decide) rfl
  exact ⟨t.1, t.2.1⟩
